import Mathlib

/-!
Verification of the GameSingleUseWords pipeline (src/main.py).

The program is a linear pipeline: build a wildcard query, call a remote
phrase-frequency API, clean the returned phrase records, lemmatize and
aggregate, convert to percentages, and tag stopwords.  Below, each Python
function is embedded as a Lean definition.  External collaborators (the
HTTP transport, the NLTK dictionary word list, the stopword set and the
lemmatizer) are passed in as parameters, exactly as the spec treats them:
string-in / string-or-bool-out services.  Python floats are modelled as
exact rationals; a Python expression that can raise (division by zero,
missing JSON key) is modelled with Option, where none is an uncaught
exception.
-/

/-- Python sequence-index normalization for a slice bound on a sequence of
length len: a negative bound counts from the end and clamps at 0, a
non-negative bound clamps at len. -/
def pyIndex (len : Nat) (i : Int) : Nat :=
  if i < 0 then ((len : Int) + i).toNat else min i.toNat len

/-- Python slice xs[lo:hi] with step 1. -/
def pySlice (lo hi : Int) (xs : List α) : List α :=
  (xs.take (pyIndex xs.length hi)).drop (pyIndex xs.length lo)

/-- Python slice xs[lo:] with step 1 (no upper bound). -/
def pySliceFrom (lo : Int) (xs : List α) : List α :=
  xs.drop (pyIndex xs.length lo)

/-- Python float division a / b: raises ZeroDivisionError when b = 0,
modelled as none. -/
def pyDiv (a b : ℚ) : Option ℚ :=
  if b = 0 then none else some (a / b)

/-- Uppercase hexadecimal digit, as used by urllib.parse.quote. -/
def hexDigit (n : Nat) : Char :=
  if n < 10 then Char.ofNat (48 + n) else Char.ofNat (55 + n)

/-- Characters that urllib.parse.quote leaves as-is: ASCII letters and
digits, the characters _.-~ (always safe) and / (the default safe set). -/
def isUnreservedChar (c : Char) : Bool :=
  (('a' ≤ c && c ≤ 'z') || ('A' ≤ c && c ≤ 'Z') || ('0' ≤ c && c ≤ '9')
    || c == '_' || c == '.' || c == '-' || c == '~' || c == '/')

/-- UTF-8 encoding of one scalar value, as the byte values. -/
def utf8Bytes (c : Char) : List Nat :=
  let n := c.toNat
  if n < 128 then [n]
  else if n < 2048 then [192 + n / 64, 128 + n % 64]
  else if n < 65536 then [224 + n / 4096, 128 + (n / 64) % 64, 128 + n % 64]
  else [240 + n / 262144, 128 + (n / 4096) % 64, 128 + (n / 64) % 64, 128 + n % 64]

/-- Percent-escape of one byte, %HH with uppercase hex. -/
def pctByte (b : Nat) : String :=
  String.mk ['%', hexDigit (b / 16), hexDigit (b % 16)]

/-- urllib.parse.quote on one character. -/
def quoteChar (c : Char) : String :=
  if isUnreservedChar c then String.singleton c
  else String.join ((utf8Bytes c).map pctByte)

/-- urllib.parse.quote with the default safe set. -/
def pyQuote (s : String) : String :=
  String.join (s.data.map quoteChar)

/-- main.py line 30/33: bracket_words = ' '.join([num_words * '?']).
The join is over a ONE-element list, so it returns that element:
num_words question marks with no separating spaces. -/
def bracket_words (num_words : Nat) : String :=
  " ".intercalate [String.mk (List.replicate num_words '?')]

/-- main.py lines 29-34: the raw query text before percent-encoding;
wildcards go before the anchor word for position 'before', after it
otherwise. -/
def raw_query (word position : String) (num_words : Nat) : String :=
  if position = "before" then bracket_words num_words ++ " " ++ word
  else word ++ " " ++ bracket_words num_words

/-- main.py lines 31/34: encoded_query = urllib.parse.quote(raw query). -/
def encoded_query (word position : String) (num_words : Nat) : String :=
  pyQuote (raw_query word position num_words)

/-- main.py lines 36-37: the query string with the fixed corpus parameter,
joined with ampersands in dict insertion order. -/
def query_params (word position : String) (num_words : Nat) : String :=
  "&".intercalate ["corpus=eng-gb", "query=" ++ encoded_query word position num_words]

/-- A token of a phrase record, carrying its text (field tt). -/
structure Token where
  tt : String
deriving DecidableEq

/-- A phrase record from the remote API: token list tks, relevance score
sc, match count mc. -/
structure PhraseRec where
  tks : List Token
  sc : ℚ
  mc : ℚ
deriving DecidableEq

/-- Outcome of the one HTTP GET plus JSON decoding: either an exception
caught by the except clause (requests.exceptions.RequestException, which
covers transport and JSON-decode failures), or a decoded body whose
phrases key holds a record list when present. -/
inductive FetchResult where
  | fail (msg : String)
  | ok (phrases : Option (List PhraseRec))
deriving DecidableEq

/-- main.py lines 16-46 (get_response_list): build the query, perform one
GET, and return (log lines, record list); returns none when the decoded
body lacks the phrases key (an uncaught KeyError).  The transport is the
external parameter http, mapping the request URL to its outcome. -/
def get_response_list (http : String → FetchResult) (word position : String)
    (num_words : Nat) : Option (List String × List PhraseRec) :=
  match http ("https://api.phrasefinder.io/search?" ++ query_params word position num_words) with
  | .fail e => some ([e], [])
  | .ok (some ps) => some ([], ps)
  | .ok none => none

/-- main.py lines 49-62 (is_word): membership in the external dictionary
word list wd.words(), here the parameter dict. -/
def is_word (dict : String → Bool) (word : String) : Bool :=
  if !(dict word) then false else true

/-- main.py lines 65-76 (is_not_stopword): true when the word is not in
the external English stopword set, here the parameter stop_words. -/
def is_not_stopword (stop_words : String → Bool) (word : String) : Bool :=
  !(stop_words word)

/-- main.py line 94: the token slice occupying the wildcard slots:
tks[1:] for position 'after', tks[-1 - num_words:-1] otherwise. -/
def answer_words (position : String) (num_words : Nat) (r : PhraseRec) : List Token :=
  if position = "after" then pySliceFrom 1 r.tks
  else pySlice (-1 - (num_words : Int)) (-1) r.tks

/-- main.py line 95: candidate text, the token texts joined with single
spaces. -/
def candidate_text (position : String) (num_words : Nat) (r : PhraseRec) : String :=
  " ".intercalate ((answer_words position num_words r).map Token.tt)

/-- main.py line 96: the filter condition: score above 0.001 and every
token text passes the dictionary check. -/
def keep_response (dict : String → Bool) (position : String) (num_words : Nat)
    (r : PhraseRec) : Bool :=
  decide ((1 : ℚ)/1000 < r.sc) && ((answer_words position num_words r).map Token.tt).all (is_word dict)

/-- main.py lines 79-98 (collect_responses): the cleaning loop, appending
(candidate text, match count) for each record that passes the filter. -/
def collect_responses (dict : String → Bool) (response_list : List PhraseRec)
    (position : String) (num_words : Nat) : List (String × ℚ) :=
  match response_list with
  | [] => []
  | r :: rest =>
    if keep_response dict position num_words r then
      (candidate_text position num_words r, r.mc) :: collect_responses dict rest position num_words
    else
      collect_responses dict rest position num_words

/-- Add v into an insertion-ordered association list at key k, as a Python
defaultdict(float) updated by d[k] += v. -/
def insertAdd (k : String) (v : ℚ) : List (String × ℚ) → List (String × ℚ)
  | [] => [(k, v)]
  | (k', v') :: rest =>
    if k' = k then (k', v' + v) :: rest else (k', v') :: insertAdd k v rest

/-- main.py lines 113-115: the defaultdict grouping loop, keyed in first
insertion order. -/
def groupSum (ps : List (String × ℚ)) : List (String × ℚ) :=
  ps.foldl (fun acc p => insertAdd p.1 p.2 acc) []

/-- main.py lines 101-116 (lemmatize_and_sum): lemmatize each text with
the external lemmatizer, group by lemma summing weights, and sort by
summed weight descending with Python's stable sort. -/
def lemmatize_and_sum (lemmatize : String → String) (words : List (String × ℚ)) :
    List (String × ℚ) :=
  (groupSum (words.map (fun w => (lemmatize w.1, w.2)))).mergeSort
    (fun a b => decide (b.2 ≤ a.2))

/-- The per-element body of the comprehension on main.py line 132:
(w[0], w[1] / total_score * 100), where the division raises when
total_score is 0; the comprehension is evaluated left to right and aborts
at the first raise. -/
def score_list (total : ℚ) : List (String × ℚ) → Option (List (String × ℚ))
  | [] => some []
  | w :: rest =>
    match pyDiv w.2 total with
    | none => none
    | some q => (score_list total rest).map (fun l => (w.1, q * 100) :: l)

/-- main.py lines 119-132 (score_generator): percentage of the grand
total, with no guard when the total is 0. -/
def score_generator (words : List (String × ℚ)) : Option (List (String × ℚ)) :=
  score_list ((words.map (fun w => w.2)).sum) words

/-- main.py lines 151-162 (add_stopword_result): append the stopword flag
to each scored pair. -/
def add_stopword_result (stop_words : String → Bool) (scores : List (String × ℚ)) :
    List (String × ℚ × Bool) :=
  scores.map (fun w => (w.1, w.2, is_not_stopword stop_words w.1))

/-- Split a character list at every space, keeping empty pieces, to name
the space-separated tokens of a pattern string. -/
def splitChars : List Char → List (List Char)
  | [] => [[]]
  | c :: rest =>
    if c = ' ' then [] :: splitChars rest
    else
      match splitChars rest with
      | [] => [[c]]
      | t :: ts => (c :: t) :: ts

/-- The space-separated tokens of a string. -/
def spaceTokens (s : String) : List String :=
  (splitChars s.data).map (fun l => String.mk l)

/-- Total weight of a list of (text, weight) pairs. -/
def sumW (l : List (String × ℚ)) : ℚ :=
  (l.map (fun w => w.2)).sum

/-! ## Helper lemmas about the Python slice embedding -/

theorem pySliceFrom_one (xs : List α) : pySliceFrom 1 xs = xs.drop 1 := by
  unfold pySliceFrom pyIndex
  rw [if_neg (by omega)]
  cases xs with
  | nil => simp
  | cons a t =>
    have h : min (Int.toNat 1) (a :: t).length = 1 := by
      simp [Nat.min_def]
    rw [h]

theorem pySlice_last_before (n : Nat) (xs : List α) :
    pySlice (-1 - (n : Int)) (-1) xs = xs.dropLast.drop (xs.dropLast.length - n) := by
  unfold pySlice pyIndex
  rw [if_pos (by omega), if_pos (by omega)]
  have e1 : ((xs.length : Int) + -1).toNat = xs.length - 1 := by omega
  have e2 : ((xs.length : Int) + (-1 - (n : Int))).toNat = xs.length - 1 - n := by omega
  rw [e1, e2, ← List.dropLast_eq_take, List.length_dropLast]

theorem collect_responses_eq_filter_map (dict : String → Bool)
    (response_list : List PhraseRec) (position : String) (num_words : Nat) :
    collect_responses dict response_list position num_words
      = (response_list.filter (keep_response dict position num_words)).map
          (fun r => (candidate_text position num_words r, r.mc)) := by
  induction response_list with
  | nil => rfl
  | cons r rest ih =>
    cases h : keep_response dict position num_words r with
    | true => simp [collect_responses, h, List.filter_cons, ih]
    | false => simp [collect_responses, h, List.filter_cons, ih]

/-! ## Claims about the Response Cleaner's token selection -/

/-- Claim C4: for every phrase record and wildcard count, the Response
Cleaner selects all tokens from index 1 onward when position is after, and
the last num_words tokens immediately preceding the final (anchor) token
when position is before, joining their texts with single spaces to form
the candidate text. -/
theorem answer_words_selection (num_words : Nat) (r : PhraseRec) :
    answer_words "after" num_words r = r.tks.drop 1
    ∧ answer_words "before" num_words r
        = r.tks.dropLast.drop (r.tks.dropLast.length - num_words)
    ∧ (∀ position : String, candidate_text position num_words r
        = " ".intercalate ((answer_words position num_words r).map Token.tt)) := by
  refine ⟨?_, ?_, fun _ => rfl⟩
  · unfold answer_words
    rw [if_pos rfl, pySliceFrom_one]
  · unfold answer_words
    rw [if_neg (by decide), pySlice_last_before]

/-- Claim C10: for position before with wildcard count 0, the token slice
is always empty, so the dictionary check is vacuous (here even a
dictionary rejecting every word) and every record with score above 0.001
yields the empty-string candidate paired with its match count — emitted,
not dropped. -/
theorem collect_responses_before_zero (dict : String → Bool)
    (response_list : List PhraseRec) :
    collect_responses dict response_list "before" 0
      = (response_list.filter (fun r => decide ((1 : ℚ)/1000 < r.sc))).map
          (fun r => ("", r.mc)) := by
  have haw : ∀ r : PhraseRec, answer_words "before" 0 r = [] := by
    intro r
    unfold answer_words
    rw [if_neg (by decide), pySlice_last_before]
    simp
  have h1 : keep_response dict "before" 0 = (fun r => decide ((1 : ℚ)/1000 < r.sc)) := by
    funext r
    unfold keep_response
    rw [haw r]
    simp
  have h2 : (fun r => (candidate_text "before" 0 r, r.mc))
      = (fun r : PhraseRec => ((""  : String), r.mc)) := by
    funext r
    unfold candidate_text
    rw [haw r]
    rfl
  rw [collect_responses_eq_filter_map, h1, h2]

/-! ## Claims about the Query Builder -/

/-- Claim C1 (evaluation at the failing input): for anchor word "test",
position before and wildcard count 2, the Query Builder joins a
ONE-element list, so the two placeholders come out as the contiguous "??"
with no separating space: splitting the raw pattern on spaces yields
["??", "test"], containing zero "?" tokens rather than two, and the
percent-encoded query is "%3F%3F%20test". -/
theorem query_builder_wildcards_not_separated :
    raw_query "test" "before" 2 = "?? test"
    ∧ spaceTokens (raw_query "test" "before" 2) = ["??", "test"]
    ∧ (spaceTokens (raw_query "test" "before" 2)).count "?" = 0
    ∧ encoded_query "test" "before" 2 = "%3F%3F%20test"
    ∧ query_params "test" "before" 2 = "corpus=eng-gb&query=%3F%3F%20test" := by
  refine ⟨rfl, by decide, by decide, rfl, rfl⟩

/-! ## Claims about the Scorer -/

/-- Claim C2 counterexample: the empty list has total weight 0, yet the
Scorer returns the empty list instead of faulting, because the division
is only evaluated per input element. -/
theorem score_generator_zero_total_counterexample :
    ((([] : List (String × ℚ)).map (fun w => w.2)).sum = 0)
    ∧ score_generator ([] : List (String × ℚ)) = some [] :=
  ⟨rfl, rfl⟩

/-- Claim C2 (amended): for every NON-EMPTY input list of (text, weight)
pairs whose total weight is 0, the Scorer faults with a division by zero;
there is no guard in the code. -/
theorem score_generator_zero_total_faults (words : List (String × ℚ))
    (hne : words ≠ []) (h0 : (words.map (fun w => w.2)).sum = 0) :
    score_generator words = none := by
  cases words with
  | nil => exact absurd rfl hne
  | cons w rest =>
    unfold score_generator
    rw [h0]
    simp [score_list, pyDiv]

/-- Witness for the amended Claim C2 at the concrete input [("a", 0)]. -/
theorem score_generator_zero_total_faults_witness :
    ([(("a" : String), (0 : ℚ))] ≠ [])
    ∧ score_generator [(("a" : String), (0 : ℚ))] = none :=
  ⟨by decide, score_generator_zero_total_faults [("a", 0)] (by decide) (by simp)⟩

/-- Claim C9: the Scorer applied to the empty list returns the empty list
without performing any division and without faulting, even though the
total weight of the empty list is 0. -/
theorem score_generator_empty :
    score_generator ([] : List (String × ℚ)) = some []
    ∧ ((([] : List (String × ℚ)).map (fun w => w.2)).sum = 0) :=
  ⟨rfl, rfl⟩

/-! ## Claims about the Response Cleaner's filter -/

/-- Claim C3: a phrase record is kept if and only if its score exceeds
0.001 and every extracted token text passes the dictionary-membership
check: the cleaner equals the filter by that condition followed by the
candidate projection, so it never emits a candidate from a record with
score at most 0.001 nor one containing a token absent from the
dictionary. -/
theorem collect_responses_keep_iff (dict : String → Bool)
    (response_list : List PhraseRec) (position : String) (num_words : Nat) :
    collect_responses dict response_list position num_words
      = (response_list.filter (keep_response dict position num_words)).map
          (fun r => (candidate_text position num_words r, r.mc))
    ∧ ∀ r : PhraseRec, keep_response dict position num_words r = true
        ↔ ((1 : ℚ)/1000 < r.sc
            ∧ ((answer_words position num_words r).map Token.tt).all (is_word dict) = true) := by
  refine ⟨collect_responses_eq_filter_map dict response_list position num_words, ?_⟩
  intro r
  unfold keep_response
  simp

/-! ## Claim about the Stopword Annotator -/

/-- Claim C7: the annotator appends to each pair the boolean produced by
is_not_stopword, and that flag is false exactly when the text is in the
stopword set. -/
theorem add_stopword_result_flag (stop_words : String → Bool)
    (scores : List (String × ℚ)) :
    add_stopword_result stop_words scores
      = scores.map (fun w => (w.1, w.2, is_not_stopword stop_words w.1))
    ∧ ∀ word : String, (is_not_stopword stop_words word = false ↔ stop_words word = true) :=
  ⟨rfl, fun word => by simp [is_not_stopword]⟩

/-! ## Claim about the Remote Lookup -/

/-- Claim C8: when the single GET (or the JSON decoding) fails with a
caught exception, the lookup logs the error message and returns the empty
record list to the caller; when it succeeds and the body carries the
phrases array, it returns that array with nothing logged. -/
theorem get_response_list_error_handling (word position : String) (num_words : Nat)
    (e : String) (ps : List PhraseRec) :
    get_response_list (fun _ => .fail e) word position num_words = some ([e], [])
    ∧ get_response_list (fun _ => .ok (some ps)) word position num_words = some ([], ps) :=
  ⟨rfl, rfl⟩

/-! ## Scorer: percentages on a positive total -/

theorem score_list_of_ne_zero (total : ℚ) (h : total ≠ 0)
    (words : List (String × ℚ)) :
    score_list total words = some (words.map (fun w => (w.1, w.2 / total * 100))) := by
  induction words with
  | nil => rfl
  | cons w rest ih => simp [score_list, pyDiv, h, ih]

theorem sum_snd_map_div_mul (words : List (String × ℚ)) (t : ℚ) :
    ((words.map (fun w => (w.1, w.2 / t * 100))).map (fun w => w.2)).sum
      = (words.map (fun w => w.2)).sum / t * 100 := by
  induction words with
  | nil => simp
  | cons w rest ih =>
    simp only [List.map_cons, List.sum_cons, ih]
    ring

/-- Claim C6: on a non-empty input whose total weight is positive, the
Scorer succeeds and maps each pair (text, weight) to
(text, weight / total * 100), and the output percentages sum to 100
within one millionth. -/
theorem score_generator_percentages (words : List (String × ℚ))
    (_hne : words ≠ [])
    (hpos : 0 < (words.map (fun w => w.2)).sum) :
    score_generator words
      = some (words.map (fun w => (w.1, w.2 / (words.map (fun w => w.2)).sum * 100)))
    ∧ |((words.map (fun w => (w.1, w.2 / (words.map (fun w => w.2)).sum * 100))).map
          (fun w => w.2)).sum - 100| ≤ 1/1000000 := by
  have ht : (words.map (fun w => w.2)).sum ≠ 0 := ne_of_gt hpos
  refine ⟨score_list_of_ne_zero _ ht words, ?_⟩
  rw [sum_snd_map_div_mul, div_self ht, one_mul]
  norm_num

/-- Witness for Claim C6 at the concrete input [("a", 1), ("b", 3)]. -/
theorem score_generator_percentages_witness :
    score_generator [(("a" : String), (1 : ℚ)), ("b", 3)]
      = some ([(("a" : String), (1 : ℚ)), ("b", 3)].map
          (fun w => (w.1, w.2 / ([(("a" : String), (1 : ℚ)), ("b", 3)].map
            (fun w => w.2)).sum * 100)))
    ∧ |(([(("a" : String), (1 : ℚ)), ("b", 3)].map
          (fun w => (w.1, w.2 / ([(("a" : String), (1 : ℚ)), ("b", 3)].map
            (fun w => w.2)).sum * 100))).map (fun w => w.2)).sum - 100| ≤ 1/1000000 :=
  score_generator_percentages [("a", 1), ("b", 3)] (by decide) (by norm_num)

/-! ## Normalizer/Aggregator: descending order and weight conservation -/

theorem sumW_insertAdd (k : String) (v : ℚ) (l : List (String × ℚ)) :
    sumW (insertAdd k v l) = sumW l + v := by
  induction l with
  | nil => simp [insertAdd, sumW]
  | cons p rest ih =>
    obtain ⟨k', v'⟩ := p
    by_cases h : k' = k
    · simp only [insertAdd, if_pos h, sumW, List.map_cons, List.sum_cons]
      ring
    · simp only [insertAdd, if_neg h, sumW, List.map_cons, List.sum_cons] at ih ⊢
      rw [ih]
      ring

theorem sumW_foldl_insertAdd (ps acc : List (String × ℚ)) :
    sumW (ps.foldl (fun a p => insertAdd p.1 p.2 a) acc) = sumW acc + sumW ps := by
  induction ps generalizing acc with
  | nil => simp [sumW]
  | cons p rest ih =>
    rw [List.foldl_cons, ih, sumW_insertAdd]
    simp only [sumW, List.map_cons, List.sum_cons]
    ring

theorem sumW_groupSum (ps : List (String × ℚ)) : sumW (groupSum ps) = sumW ps := by
  unfold groupSum
  rw [sumW_foldl_insertAdd]
  simp [sumW]

/-- Claim C5: the Normalizer/Aggregator's output weights sum to the input
total (grouping by lemma neither drops nor duplicates weight), and the
output is sorted by summed weight descending. -/
theorem lemmatize_and_sum_sorted_and_total (lemmatize : String → String)
    (words : List (String × ℚ)) :
    ((lemmatize_and_sum lemmatize words).map (fun w => w.2)).sum
        = (words.map (fun w => w.2)).sum
    ∧ (lemmatize_and_sum lemmatize words).Pairwise (fun a b => b.2 ≤ a.2) := by
  constructor
  · unfold lemmatize_and_sum
    have hperm :=
      List.mergeSort_perm (groupSum (words.map (fun w => (lemmatize w.1, w.2))))
        (fun a b => decide (b.2 ≤ a.2))
    have h1 := (hperm.map (fun w : String × ℚ => w.2)).sum_eq
    rw [h1]
    have h2 := sumW_groupSum (words.map (fun w => (lemmatize w.1, w.2)))
    unfold sumW at h2
    rw [h2, List.map_map]
    rfl
  · unfold lemmatize_and_sum
    have hp := List.sorted_mergeSort
      (fun (a b c : String × ℚ) (h1 : decide (b.2 ≤ a.2) = true)
          (h2 : decide (c.2 ≤ b.2) = true) =>
        decide_eq_true (le_trans (of_decide_eq_true h2) (of_decide_eq_true h1)))
      (fun (a b : String × ℚ) => by
        simp only [Bool.or_eq_true, decide_eq_true_eq]
        exact le_total b.2 a.2)
      (groupSum (words.map (fun w => (lemmatize w.1, w.2))))
    exact hp.imp (fun h => of_decide_eq_true h)
